import Mathlib

/-!
Verification of the model-definition reconciliation and safe-mutation engine
of the Ollama model manager (sources: `ollama_api.py`, `fix_ollama_manager.py`).

The Python sources are embedded shallowly:
* strings are `String`; the Python operations `str.strip()`, `str.startswith`,
  `str.split("\n")` and `"\n".join` are given executable definitions over the
  character list of the string, so that every definition evaluates inside the
  kernel;
* the two regular expressions of the sources are embedded as executable
  recognizers over `List Char` with exactly the search/match semantics the
  code uses (`re.search` anchored only at the end, `re.match` anchored at the
  start with `$`);
* the daemon and the OS command surface are external collaborators: their
  observable behaviour (return codes of `ollama create/rm/cp`, the text
  listing used for the existence check and the final verification) is an
  oracle parameter, and the daemon catalog is explicit state;
* GUI dialogs are parameters (the list of available base models offered to
  the user and the choice of the user).
-/

namespace OllamaSpec

/-! ### Python string primitives over character lists -/

/-- Run test: `listLead n h` is true when `n` is an initial run of `h`
(Python `h.startswith(n)` at the character level). -/
def listLead : List Char → List Char → Bool
  | [], _ => true
  | _ :: _, [] => false
  | a :: as, b :: bs => a == b && listLead as bs

/-- Python `needle in haystack`: substring occurrence at any position. -/
def listHas (needle : List Char) : List Char → Bool
  | [] => needle.isEmpty
  | c :: rest => listLead needle (c :: rest) || listHas needle rest

/-- Python `str.strip()`: drop whitespace from both ends. -/
def pyStrip (l : List Char) : List Char :=
  ((l.dropWhile Char.isWhitespace).reverse.dropWhile Char.isWhitespace).reverse

/-- Python `s.strip()` on strings. -/
def sTrim (s : String) : String := ⟨pyStrip s.data⟩

/-- Python `s.startswith(p)` on strings. -/
def sStartsWith (s p : String) : Bool := listLead p.data s.data

/-- Python `s.split("\n")` at the character level. -/
def pySplitNl : List Char → List (List Char)
  | [] => [[]]
  | c :: cs =>
    match pySplitNl cs with
    | [] => [[c]]
    | h :: t => if c == '\n' then [] :: h :: t else (c :: h) :: t

/-- Python `s.split("\n")` on strings. -/
def sLines (s : String) : List String := (pySplitNl s.data).map fun l => ⟨l⟩

/-- Python `"\n".join(parts)`. -/
def sJoinNl : List String → String
  | [] => ""
  | [x] => x
  | x :: xs => x ++ "\n" ++ sJoinNl xs

/-! ### Character classes and the two regular expressions of the sources -/

/-- Characters of the class `[a-zA-Z0-9._-]` used by both regexes of the
sources (base-model names and model names). -/
def isNameChar (c : Char) : Bool :=
  c.isAlpha || c.isDigit || c == '.' || c == '_' || c == '-'

/-- Nonempty run of name characters reaching the end of the input:
the regex fragment `[a-zA-Z0-9._-]+$`. -/
def matchName : List Char → Bool
  | [] => false
  | [c] => isNameChar c
  | c :: cs => isNameChar c && matchName cs

/-- The regex fragment `[a-zA-Z0-9._-]+(?::[a-zA-Z0-9._-]+)?$`: a name with
an optional `:tag`, reaching the end of the input.  Because `:` is not a name
character, the regex language is: the longest name-character run is nonempty,
and it is followed either by nothing or by `:` and a nonempty name run. -/
def matchNameTag (l : List Char) : Bool :=
  match l.span isNameChar with
  | (a, []) => !a.isEmpty
  | (a, c :: b) => !a.isEmpty && c == ':' && matchName b

/-- The regex fragment `\s+` followed by `matchNameTag`, reaching the end. -/
def matchWsName : List Char → Bool
  | [] => false
  | c :: cs => c.isWhitespace && (matchNameTag cs || matchWsName cs)

/-- Match of `FROM\s+[a-zA-Z0-9._-]+(?::[a-zA-Z0-9._-]+)?$` starting exactly
at the head of the input. -/
def matchFromHere : List Char → Bool
  | 'F' :: 'R' :: 'O' :: 'M' :: rest => matchWsName rest
  | _ => false

/-- `re.search(r'FROM\s+[a-zA-Z0-9._-]+(?::[a-zA-Z0-9._-]+)?$', s)`: the
pattern may start at any position, and is anchored only at the end
(fix_ollama_manager.py line 1230). -/
def searchFrom : List Char → Bool
  | [] => false
  | c :: cs => matchFromHere (c :: cs) || searchFrom cs

/-- The FROM-line validity test applied to a stripped line. -/
def isValidFromLine (s : String) : Bool := searchFrom s.data

/-- `re.match(r'^[a-zA-Z0-9._-]+$', name)` (fix_ollama_manager.py lines 547
and 579).  Python `$` also matches just before one trailing newline, which
the embedding keeps. -/
def reNameFull (n : String) : Bool :=
  let cs := n.data
  let cs := if cs.getLast? == some '\n' then cs.dropLast else cs
  !cs.isEmpty && cs.all isNameChar

/-! ### DefinitionValidator: `OllamaManagerGUI._ensure_valid_from_directive`
(fix_ollama_manager.py lines 1209-1292, `check_only=False` path) -/

/-- The scanning loop of lines 1224-1238: skip comment lines; on the first
line stripped to a `FROM `-led line, the loop breaks with the result of the
regex search on that stripped line; any other nonblank line breaks the loop
with an invalid result; blank lines are skipped. -/
def scanLines : List String → Bool
  | [] => false
  | l :: ls =>
    if sStartsWith (sTrim l) "#" then scanLines ls
    else if sStartsWith (sTrim l) "FROM " then isValidFromLine (sTrim l)
    else if sTrim l == "" then scanLines ls
    else false

/-- The `has_valid_from` flag computed by lines 1216-1238: an empty document
is rejected outright (`if not modelfile_content`), otherwise the loop runs
over `modelfile_content.strip().split('\n')`. -/
def hasValidFrom (content : String) : Bool :=
  if content == "" then false else scanLines (sLines (sTrim content))

/-- The repair loop of lines 1282-1286: every line whose stripped form starts
with `FROM ` is skipped, every other line (comments and blanks included) is
appended to `user_content` in order. -/
def collectUserLines (lines : List String) : List String :=
  lines.foldl (fun acc l => if sStartsWith (sTrim l) "FROM " then acc else acc ++ [l]) []

/-- `_ensure_valid_from_directive(modelfile_content)` with `check_only=False`.
`models` is what `api.list_models()` returned (names only) and `choice` the
outcome of the base-model selection dialog (`none`: dialog cancelled).
Returns `none` when the operation must be aborted, `some text` with the
accepted or repaired document otherwise (lines 1216-1292). -/
def ensureValidFromDirective (content : String) (models : List String)
    (choice : Option String) : Option String :=
  if content == "" then none
  else
    let lines := sLines (sTrim content)
    if scanLines lines then some content
    else if models.isEmpty then none
    else
      match choice with
      | none => none
      | some m => some (sJoinNl (("FROM " ++ m) :: collectUserLines lines))

/-! ### Claim-side comparison definitions (from the words of the spec,
for the refinement comparison only; the code above is the authority) -/

/-- Claim-side: the first non-blank, non-comment line of a list of lines. -/
def firstSubstantive : List String → Option String
  | [] => none
  | l :: ls =>
    if sTrim l == "" || sStartsWith (sTrim l) "#" then firstSubstantive ls else some l

/-- Claim-side: the argument of a `FROM`-led stripped line, read as the
whole text after the keyword with surrounding whitespace removed. -/
def claimArgOf (t : String) : String := sTrim ⟨t.data.drop 4⟩

/-- Claim-side validity, following the claim words: the first non-blank,
non-comment line is a `FROM` directive whose argument matches the anchored
pattern `^[A-Za-z0-9._-]+(:[A-Za-z0-9._-]+)?$`. -/
def claimValidFrom (content : String) : Bool :=
  match firstSubstantive (sLines content) with
  | none => false
  | some l => sStartsWith (sTrim l) "FROM " && matchNameTag (claimArgOf (sTrim l)).data

/-- Claim-side: remove only the first `FROM `-led line of a document,
keeping every other line (the claim says the rebuilt document keeps all
original lines except the original base-directive line). -/
def claimRemoveBaseLine : List String → List String
  | [] => []
  | l :: ls => if sStartsWith (sTrim l) "FROM " then ls else l :: claimRemoveBaseLine ls

/-! ### DaemonClient state: the catalog of named models -/

/-- The daemon catalog: model name to modelfile text. -/
structure Daemon where
  models : String → Option String

/-- A successful `ollama create <n> -f <file>` or `ollama cp <src> <n>`:
the catalog now maps `n` to the given definition text. -/
def setModel (st : Daemon) (n c : String) : Daemon :=
  ⟨fun m => if m = n then some c else st.models m⟩

/-- A successful `ollama rm <n>`: the catalog no longer maps `n`. -/
def delModel (st : Daemon) (n : String) : Daemon :=
  ⟨fun m => if m = n then none else st.models m⟩

/-- `OllamaAPI.get_modelfile` (ollama_api.py lines 211-222): fetches the
definition text of a model through `/api/show`. -/
def getModelfile (st : Daemon) (n : String) : Option String := st.models n

/-- The existence / verification check of ollama_api.py lines 128-129 and
194-196: `ollama list | findstr "<name>"` followed by
`model_name in result.stdout`.  The listing output holds the catalog names
(one line each), so the name is detected exactly when it occurs as a
substring of some listed name. -/
def detects (listing : List String) (n : String) : Bool :=
  listing.any fun m => listHas n.data m.data

/-- The temporary model name of line 139:
`f"{model_name}_temp_{int(time.time())}"`. -/
def tempNameOf (name : String) (now : Nat) : String :=
  name ++ "_temp_" ++ toString now

/-! ### `OllamaAPI.create_model` (ollama_api.py lines 110-209, win32 path) -/

/-- One external `ollama` invocation issued by `create_model`. -/
inductive Cmd where
  | createM (name : String)
  | rmM (name : String)
  | cpM (src dst : String)
  | verifyList (name : String)
deriving DecidableEq

/-- Observable behaviour of the external command surface during one
`create_model` run: the listing seen by the existence check, each build and
delete return code, the copy return code, and the listing seen by the final
verification.  The daemon may fail or succeed arbitrarily; the oracle fixes
one run. -/
structure Oracle where
  preListing : List String
  buildOk : String → Bool
  rmOk : String → Bool
  cpOk : Bool
  postListing : List String

/-- Outcome of one `create_model` call: the reported result, the daemon
catalog afterwards, the `ollama` commands issued in order, and whether the
temporary modelfile was written to disk. -/
structure CreateOutcome where
  ok : Bool
  daemon : Daemon
  cmds : List Cmd
  tempFile : Bool

/-- Lines 191-198: after a successful sequence, `ollama list | findstr` is
run once more and the result is withdrawn when the name is not detected in
the fresh listing; on failure the verification is skipped. -/
def verifyStep (orc : Oracle) (name : String) (success : Bool) (st : Daemon)
    (cmds : List Cmd) : CreateOutcome :=
  if success then
    { ok := detects orc.postListing name, daemon := st,
      cmds := cmds ++ [Cmd.verifyList name], tempFile := true }
  else
    { ok := false, daemon := st, cmds := cmds, tempFile := true }

/-- Lines 133-161: the replace protocol for a name the existence check
detected.  Build under the temporary name (early return on failure, original
untouched); delete the original (return code ignored); copy the temporary
model onto the name (this return code is the reported success); delete the
temporary model (return code not even captured). -/
def replaceExisting (orc : Oracle) (st : Daemon) (name content : String)
    (now : Nat) : CreateOutcome :=
  let temp := tempNameOf name now
  if orc.buildOk temp = false then
    { ok := false, daemon := st, cmds := [Cmd.createM temp], tempFile := true }
  else
    let st1 := setModel st temp content
    let st2 := if orc.rmOk name then delModel st1 name else st1
    let st3 :=
      if orc.cpOk then
        match st2.models temp with
        | some c => setModel st2 name c
        | none => st2
      else st2
    let st4 := if orc.rmOk temp then delModel st3 temp else st3
    verifyStep orc name orc.cpOk st4
      [Cmd.createM temp, Cmd.rmM name, Cmd.cpM temp name, Cmd.rmM temp]

/-- Lines 167-178: direct creation for a name the existence check did not
detect. -/
def createFresh (orc : Oracle) (st : Daemon) (name content : String) :
    CreateOutcome :=
  let stN := if orc.buildOk name then setModel st name content else st
  verifyStep orc name (orc.buildOk name) stN [Cmd.createM name]

/-- `OllamaAPI.create_model(model_name, modelfile_content)` on win32.
Line 115 rejects a document that is empty or whose stripped text does not
start with the literal `FROM` before the temporary modelfile is written and
before any `ollama` command runs. -/
def createModel (orc : Oracle) (st : Daemon) (name content : String)
    (now : Nat) : CreateOutcome :=
  if content == "" || !(sStartsWith (sTrim content) "FROM") then
    { ok := false, daemon := st, cmds := [], tempFile := false }
  else if detects orc.preListing name then replaceExisting orc st name content now
  else createFresh orc st name content

/-! ### `OllamaManagerGUI._create_model_with_thread` gate and the
single-worker coordinator (fix_ollama_manager.py lines 570-633) -/

/-- What the gate does with a request before any thread is started. -/
inductive GateResult where
  | busy
  | invalidName
  | cancelled
  | started (content : String)
deriving DecidableEq

/-- Lines 572-595, in order: reject with a busy warning while the previous
creation thread is running; for every operation tag other than `"save"`
reject an empty name or one `re.match(r'^[a-zA-Z0-9._-]+$', ...)` refuses;
for tags other than `"save"` run the FROM-directive validation and abort on
cancel; otherwise start the creation thread with the (possibly repaired)
content.  `op` is `self.current_operation`. -/
def createGate (running : Bool) (op : Option String) (name content : String)
    (models : List String) (choice : Option String) : GateResult :=
  if running then GateResult.busy
  else if !(op == some "save") && (name == "" || !(reNameFull name)) then
    GateResult.invalidName
  else if !(op == some "save") then
    match ensureValidFromDirective content models choice with
    | none => GateResult.cancelled
    | some fixed => GateResult.started fixed
  else GateResult.started content

/-- The coordinator: the GUI holds a single `create_thread` slot, so its
whole observable state is whether that one thread is running.  There is no
queue. -/
structure Coord where
  running : Bool
deriving DecidableEq

/-- Submitting a create/replace request to the coordinator: the gate runs,
and only a `started` outcome occupies the single worker slot.  Every other
outcome leaves the coordinator exactly as it was. -/
def submitCreate (c : Coord) (op : Option String) (name content : String)
    (models : List String) (choice : Option String) : GateResult × Coord :=
  match createGate c.running op name content models choice with
  | GateResult.started fixed => (GateResult.started fixed, ⟨true⟩)
  | r => (r, c)

/-! ### BackupStore: `save_modelfile` capture (lines 788-804) and
`_restore_from_backup` (lines 1171-1201) -/

/-- The backup store: the in-memory `self.model_backups` dict (name to
captured content; the dict also records the path and a timestamp, and the
path is always `backupPathOf name`) and the durable files in the temp
directory (path to content).  Both are kept as association lists whose
update overwrites the previous entry for the same key, which is what dict
assignment and reopening the same file for writing do. -/
structure BackupState where
  index : List (String × String)
  files : List (String × String)

/-- Line 791: `os.path.join(tempfile.gettempdir(), f"{model_name}_backup.modelfile")`
(the temp directory part is constant and dropped). -/
def backupPathOf (n : String) : String := n ++ "_backup.modelfile"

/-- Writing a file at a path: the new content replaces any previous one. -/
def writeBackupFile (files : List (String × String)) (p c : String) :
    List (String × String) :=
  (p, c) :: files.filter fun e => !(e.1 == p)

/-- Reading the file at a path. -/
def readBackupFile (files : List (String × String)) (p : String) :
    Option String :=
  (files.find? fun e => e.1 == p).map fun e => e.2

/-- Lines 789-800: capture before a destructive save.  The current
definition of the model is written to the per-name backup file and recorded
in `self.model_backups[model_name]`, each overwriting the previous capture
for that name. -/
def captureBackup (st : BackupState) (n content : String) : BackupState :=
  { files := writeBackupFile st.files (backupPathOf n) content,
    index := (n, content) :: st.index.filter fun e => !(e.1 == n) }

/-- Lines 1171-1201: restore looks the name up in `self.model_backups`,
reads the durable file recorded there, and feeds the content to the
create/replace machinery.  Nothing is removed from the store: the returned
state is the input state. -/
def restoreFromBackup (st : BackupState) (n : String) :
    Option String × BackupState :=
  match st.index.find? (fun e => e.1 == n) with
  | none => (none, st)
  | some _ => (readBackupFile st.files (backupPathOf n), st)

/-! ### NetworkIsolationController (fix_ollama_manager.py lines 941-1065) -/

/-- Presence of the two firewall rules `OllamaSecurityOut` and
`OllamaSecurityIn`. -/
structure FwState where
  outRule : Bool
  inRule : Bool
deriving DecidableEq

/-- `check_firewall_rules` (lines 941-962): the security-mode checkbox is
set exactly when the `Get-NetFirewallRule` query succeeds for both rules,
that is when both rules exist; every other state unchecks the box.  The
method reports only these two outcomes. -/
def checkFirewallRules (s : FwState) : Bool := s.outRule && s.inRule

/-- `enable_security_mode` (lines 1017-1044), success path: both
`New-NetFirewallRule` commands succeed, so both rules exist afterwards. -/
def enableSecurityMode (_ : FwState) : FwState :=
  { outRule := true, inRule := true }

/-- `disable_security_mode` (lines 1046-1065): both rules are removed with
`-ErrorAction SilentlyContinue`, idempotently. -/
def disableSecurityMode (_ : FwState) : FwState :=
  { outRule := false, inRule := false }

/-- Claim-side isolation state with the three values the claim names. -/
inductive IsoState where
  | isoOn
  | isoOff
  | isoInconsistent
deriving DecidableEq

/-- Claim-side `currentState()`, following the claim words: on when both
rules exist, off when neither does, inconsistent when exactly one does. -/
def claimCurrentState (s : FwState) : IsoState :=
  if s.outRule && s.inRule then IsoState.isoOn
  else if !s.outRule && !s.inRule then IsoState.isoOff
  else IsoState.isoInconsistent

/-! ### Helper lemmas -/

theorem listLead_self : ∀ l : List Char, listLead l l = true
  | [] => rfl
  | a :: as => by simp [listLead, listLead_self as]

theorem listHas_self : ∀ l : List Char, listHas l l = true
  | [] => rfl
  | c :: cs => by simp [listHas, listLead_self]

/-- A name that is itself a line of the listing is detected by the
substring check. -/
theorem detects_of_mem {listing : List String} {n : String} (h : n ∈ listing) :
    detects listing n = true :=
  List.any_eq_true.mpr ⟨n, h, listHas_self _⟩

/-- The append-unless-FROM fold is a filter. -/
theorem foldl_skipFrom (ls : List String) (acc : List String) :
    ls.foldl (fun acc l => if sStartsWith (sTrim l) "FROM " then acc else acc ++ [l]) acc
      = acc ++ ls.filter fun l => !(sStartsWith (sTrim l) "FROM ") := by
  induction ls generalizing acc with
  | nil => simp
  | cons l ls ih =>
    by_cases h : sStartsWith (sTrim l) "FROM " = true
    · simp [h, ih]
    · have h' : sStartsWith (sTrim l) "FROM " = false := by simpa using h
      simp [h', ih]

theorem collectUserLines_eq (ls : List String) :
    collectUserLines ls = ls.filter fun l => !(sStartsWith (sTrim l) "FROM ") := by
  simpa using foldl_skipFrom ls []

/-- The scanning loop accepts exactly when the first non-blank, non-comment
line starts with `FROM ` and passes the end-anchored regex search. -/
theorem scanLines_eq (ls : List String) :
    scanLines ls = (match firstSubstantive ls with
      | none => false
      | some l => sStartsWith (sTrim l) "FROM " && isValidFromLine (sTrim l)) := by
  induction ls with
  | nil => rfl
  | cons l ls ih =>
    by_cases h1 : sStartsWith (sTrim l) "#" = true
    · simp [scanLines, firstSubstantive, h1, ih]
    · have h1' : sStartsWith (sTrim l) "#" = false := by simpa using h1
      by_cases h2 : (sTrim l == "") = true
      · have he : sTrim l = "" := by simpa using h2
        have hf : sStartsWith (sTrim l) "FROM " = false := by rw [he]; rfl
        simp [scanLines, firstSubstantive, h1', h2, hf, ih]
      · have h2' : (sTrim l == "") = false := by simpa using h2
        by_cases h3 : sStartsWith (sTrim l) "FROM " = true
        · simp [scanLines, firstSubstantive, h1', h2', h3]
        · have h3' : sStartsWith (sTrim l) "FROM " = false := by simpa using h3
          simp [scanLines, firstSubstantive, h1', h2', h3']

/-- Keys removed by one filter are not found by the opposite one. -/
theorem filter_eq_of_filter_ne (N : String) (l : List (String × String)) :
    ((l.filter fun e => !(e.1 == N)).filter fun e => e.1 == N) = [] := by
  induction l with
  | nil => rfl
  | cons a l ih =>
    by_cases h : (a.1 == N) = true
    · simp [List.filter_cons, h, ih]
    · have h' : (a.1 == N) = false := by simpa using h
      simp [List.filter_cons, h', ih]

/-! ### Concrete states and oracles used by the witnesses and
counterexamples -/

/-- A catalog holding only `foo`, with a two-line definition. -/
def stWitFoo : Daemon :=
  ⟨fun m => if m = "foo" then some "FROM llama2\nPARAMETER temperature 0.8" else none⟩

/-- A catalog holding only `foobar`. -/
def stWitBar : Daemon :=
  ⟨fun m => if m = "foobar" then some "FROM llama2" else none⟩

/-- A run in which every command succeeds and the listings show `foo`. -/
def orcWitAll : Oracle :=
  { preListing := ["foo"], buildOk := fun _ => true, rmOk := fun _ => true,
    cpOk := true, postListing := ["foo"] }

/-- A run in which every build fails; the listing shows `foo`. -/
def orcWitFail : Oracle :=
  { preListing := ["foo"], buildOk := fun _ => false, rmOk := fun _ => true,
    cpOk := true, postListing := [] }

/-- A run in which every command succeeds but both listings show only
`foobar`. -/
def orcWitSub : Oracle :=
  { preListing := ["foobar"], buildOk := fun _ => true, rmOk := fun _ => true,
    cpOk := true, postListing := ["foobar"] }

/-- A run in which every command succeeds but the final listing is empty. -/
def orcWitNoList : Oracle :=
  { preListing := [], buildOk := fun _ => true, rmOk := fun _ => true,
    cpOk := true, postListing := [] }

/-! ### The claims -/

/-- C1: if the build under the temporary name fails during a replace of an
existing model `N` holding definition `D0`, `create_model` returns failure,
never issues `ollama rm N`, and a subsequent fetch of the definition of `N`
still returns `D0` unchanged. -/
theorem claim_C1_temp_build_failure_safe
    (orc : Oracle) (st : Daemon) (N D0 D : String) (now : Nat)
    (hmem : N ∈ orc.preListing) (hD0 : st.models N = some D0)
    (hne : D ≠ "") (hfrom : sStartsWith (sTrim D) "FROM" = true)
    (hfail : orc.buildOk (tempNameOf N now) = false) :
    (createModel orc st N D now).ok = false ∧
    getModelfile (createModel orc st N D now).daemon N = some D0 ∧
    Cmd.rmM N ∉ (createModel orc st N D now).cmds := by
  have hdet : detects orc.preListing N = true := detects_of_mem hmem
  have hc : (D == "" || !(sStartsWith (sTrim D) "FROM")) = false := by
    simp [hfrom, hne]
  simp [createModel, hc, hdet, replaceExisting, hfail, getModelfile, hD0]

/-- Witness for C1: a concrete failing replace of `foo`. -/
theorem claim_C1_witness :
    (createModel orcWitFail stWitFoo "foo" "FROM mistral" 5).ok = false ∧
    getModelfile (createModel orcWitFail stWitFoo "foo" "FROM mistral" 5).daemon "foo"
      = some "FROM llama2\nPARAMETER temperature 0.8" ∧
    Cmd.rmM "foo" ∉ (createModel orcWitFail stWitFoo "foo" "FROM mistral" 5).cmds :=
  claim_C1_temp_build_failure_safe orcWitFail stWitFoo "foo"
    "FROM llama2\nPARAMETER temperature 0.8" "FROM mistral" 5
    (by decide) (by decide) (by decide) (by decide) (by decide)

/-- C9: while the single creation thread is running, every further
create/replace request is rejected immediately with the busy warning, for
every operation tag, name and content; the coordinator state is returned
unchanged (nothing is queued or merged) and no thread is started. -/
theorem claim_C9_busy_rejection (op : Option String) (name content : String)
    (models : List String) (choice : Option String) :
    submitCreate ⟨true⟩ op name content models choice = (GateResult.busy, ⟨true⟩) := by
  rfl

/-- C10: a definition whose stripped text does not begin with the literal
`FROM` is rejected by `create_model` before the temporary modelfile is
written and before any `ollama` command is issued, whatever the daemon
state and run behaviour. -/
theorem claim_C10_reject_before_effects (orc : Oracle) (st : Daemon)
    (name content : String) (now : Nat)
    (h : sStartsWith (sTrim content) "FROM" = false) :
    createModel orc st name content now =
      { ok := false, daemon := st, cmds := [], tempFile := false } := by
  have hc : (content == "" || !(sStartsWith (sTrim content) "FROM")) = true := by
    simp [h]
  simp [createModel, hc]

/-- Witness for C10: a definition opening with a comment line followed by a
valid base directive is still rejected outright. -/
theorem claim_C10_witness :
    createModel orcWitAll stWitFoo "newmodel" "# note\nFROM llama2" 0 =
      { ok := false, daemon := stWitFoo, cmds := [], tempFile := false } :=
  claim_C10_reject_before_effects orcWitAll stWitFoo "newmodel"
    "# note\nFROM llama2" 0 (by decide)

/-- C2 (amended): for every name the substring-based existence check
detects — every name actually in the catalog among them — the replace
protocol issues exactly build-temp, `rm` original, `cp` temp over the name,
`rm` temp, in this order, followed by the verification listing when the copy
succeeded; the reported result is the copy return code refined by the final
detection, so the outcome of the best-effort temp cleanup (and of the
original deletion) never changes it.  A name the check does not detect is
created directly with no temporary step. -/
theorem claim_C2_replace_sequence :
    (∀ (orc : Oracle) (st : Daemon) (N D : String) (now : Nat),
      detects orc.preListing N = true → D ≠ "" →
      sStartsWith (sTrim D) "FROM" = true →
      orc.buildOk (tempNameOf N now) = true →
      (createModel orc st N D now).cmds =
        [Cmd.createM (tempNameOf N now), Cmd.rmM N,
         Cmd.cpM (tempNameOf N now) N, Cmd.rmM (tempNameOf N now)] ++
        (if orc.cpOk then [Cmd.verifyList N] else []) ∧
      (createModel orc st N D now).ok = (orc.cpOk && detects orc.postListing N)) ∧
    (∀ (orc : Oracle) (st : Daemon) (N D : String) (now : Nat),
      detects orc.preListing N = false → D ≠ "" →
      sStartsWith (sTrim D) "FROM" = true →
      (createModel orc st N D now).cmds =
        [Cmd.createM N] ++ (if orc.buildOk N then [Cmd.verifyList N] else []) ∧
      (createModel orc st N D now).ok =
        (orc.buildOk N && detects orc.postListing N)) := by
  constructor
  · intro orc st N D now hdet hne hfrom hbuild
    have hc : (D == "" || !(sStartsWith (sTrim D) "FROM")) = false := by
      simp [hfrom, hne]
    cases hcp : orc.cpOk <;>
      simp [createModel, hc, hdet, replaceExisting, hbuild, verifyStep, hcp]
  · intro orc st N D now hdet hne hfrom
    have hc : (D == "" || !(sStartsWith (sTrim D) "FROM")) = false := by
      simp [hfrom, hne]
    cases hb : orc.buildOk N <;>
      simp [createModel, hc, hdet, createFresh, verifyStep, hb]

/-- Counterexample for C2 as stated: the catalog holds only `foobar`, so
`foo` does not exist, yet the existence check detects the substring and the
code takes the temporary-name replace path instead of creating directly. -/
theorem claim_C2_cex :
    stWitBar.models "foo" = none ∧
    Cmd.createM (tempNameOf "foo" 7) ∈
      (createModel orcWitSub stWitBar "foo" "FROM llama2" 7).cmds := by
  exact ⟨by decide, by decide⟩

/-- Witness for C2: a concrete successful replace of the existing `foo`. -/
theorem claim_C2_witness :
    (createModel orcWitAll stWitFoo "foo" "FROM mistral" 3).cmds =
      [Cmd.createM (tempNameOf "foo" 3), Cmd.rmM "foo",
       Cmd.cpM (tempNameOf "foo" 3) "foo", Cmd.rmM (tempNameOf "foo" 3)] ++
      (if orcWitAll.cpOk then [Cmd.verifyList "foo"] else []) ∧
    (createModel orcWitAll stWitFoo "foo" "FROM mistral" 3).ok =
      (orcWitAll.cpOk && detects orcWitAll.postListing "foo") :=
  claim_C2_replace_sequence.1 orcWitAll stWitFoo "foo" "FROM mistral" 3
    (by decide) (by decide) (by decide) (by decide)

/-- C3 (amended): whenever the final listing does not contain the name even
as a substring of a listed entry, `create_model` reports failure — on every
path, including ones whose build steps succeeded; and whenever it reports
success, the verification listing was consulted.  The check is the same
substring test as the existence check, so a name absent from the catalog
but occurring inside another listed name still passes it. -/
theorem claim_C3_verification_gate (orc : Oracle) (st : Daemon)
    (N D : String) (now : Nat) :
    (detects orc.postListing N = false → (createModel orc st N D now).ok = false) ∧
    ((createModel orc st N D now).ok = true →
      Cmd.verifyList N ∈ (createModel orc st N D now).cmds) := by
  by_cases h1 : (D == "" || !(sStartsWith (sTrim D) "FROM")) = true
  · simp [createModel, h1]
  · have h1' : (D == "" || !(sStartsWith (sTrim D) "FROM")) = false := by
      simpa using h1
    by_cases h2 : detects orc.preListing N = true
    · by_cases h3 : orc.buildOk (tempNameOf N now) = true
      · cases h4 : orc.cpOk <;>
          simp [createModel, h1', h2, replaceExisting, h3, verifyStep, h4]
      · have h3' : orc.buildOk (tempNameOf N now) = false := by simpa using h3
        simp [createModel, h1', h2, replaceExisting, h3', verifyStep]
    · have h2' : detects orc.preListing N = false := by simpa using h2
      cases h5 : orc.buildOk N <;>
        simp [createModel, h1', h2', createFresh, verifyStep, h5]

/-- Counterexample for C3 as stated: after a successful run, `foo` is not a
model of the final listing (which holds only `foobar`), yet the operation
reports success, because the verification is a substring test. -/
theorem claim_C3_cex :
    "foo" ∉ orcWitSub.postListing ∧
    (createModel orcWitSub stWitBar "foo" "FROM llama2" 7).ok = true := by
  exact ⟨by decide, by decide⟩

/-- Witness for C3: with an empty final listing, a run whose build steps all
succeeded still reports failure. -/
theorem claim_C3_witness :
    (createModel orcWitNoList ⟨fun _ => none⟩ "foo" "FROM llama2" 3).ok = false :=
  (claim_C3_verification_gate orcWitNoList ⟨fun _ => none⟩ "foo" "FROM llama2" 3).1
    (by decide)

/-- C4 (amended): the validator accepts a document — returning it unchanged
with no repair — exactly when the first non-blank, non-comment line of the
stripped document starts with `FROM ` and the pattern
`FROM\s+[A-Za-z0-9._-]+(:[A-Za-z0-9._-]+)?` matches a suffix of that
stripped line (the regex is searched, anchored only at the end, not applied
to the whole argument); an empty or whitespace-only document is invalid. -/
theorem claim_C4_validate_characterization
    (content : String) (models : List String) (choice : Option String) :
    (hasValidFrom content = true →
      ensureValidFromDirective content models choice = some content) ∧
    hasValidFrom content =
      (match firstSubstantive (sLines (sTrim content)) with
       | none => false
       | some l => sStartsWith (sTrim l) "FROM " && isValidFromLine (sTrim l)) ∧
    hasValidFrom "" = false ∧ hasValidFrom "   " = false := by
  refine ⟨?_, ?_, by decide, by decide⟩
  · intro h
    cases hc : (content == "") with
    | true => simp [hasValidFrom, hc] at h
    | false =>
      have hscan : scanLines (sLines (sTrim content)) = true := by
        simpa [hasValidFrom, hc] using h
      simp [ensureValidFromDirective, hc, hscan]
  · cases hc : (content == "") with
    | true =>
      have he : content = "" := by simpa using hc
      subst he
      decide
    | false => simp [hasValidFrom, hc, scanLines_eq]

/-- Counterexample for C4 as stated: the first substantive line
`FROM ./x FROM llama2` has argument `./x FROM llama2`, which the anchored
name-with-optional-tag pattern rejects, yet the code accepts the document
unchanged, because `re.search` finds the trailing `FROM llama2`. -/
theorem claim_C4_cex :
    ensureValidFromDirective "FROM ./x FROM llama2" [] none
      = some "FROM ./x FROM llama2" ∧
    claimValidFrom "FROM ./x FROM llama2" = false := by
  exact ⟨by decide, by decide⟩

/-- Witness for C4: a plainly valid one-line document is accepted
unchanged. -/
theorem claim_C4_witness :
    ensureValidFromDirective "FROM llama2" [] none = some "FROM llama2" :=
  (claim_C4_validate_characterization "FROM llama2" [] none).1 (by decide)

/-- C5 (amended): when the document lacks a valid base directive, base
models are available and the user picks `m`, the repair rebuilds the
document as the directive `FROM m` followed by every line of the stripped
original whose own stripped form does not start with `FROM ` — all
FROM-led lines are removed, not only the original base-directive line;
comments, parameters and system lines are kept in their original order. -/
theorem claim_C5_repair_rebuild (content : String) (models : List String)
    (m : String) (h0 : content ≠ "") (h1 : hasValidFrom content = false)
    (h2 : models ≠ []) :
    ensureValidFromDirective content models (some m) =
      some (sJoinNl (("FROM " ++ m) ::
        (sLines (sTrim content)).filter fun l => !(sStartsWith (sTrim l) "FROM "))) := by
  have hc : (content == "") = false := by simpa using h0
  have hscan : scanLines (sLines (sTrim content)) = false := by
    simpa [hasValidFrom, hc] using h1
  have hm : models.isEmpty = false := by simpa using h2
  simp [ensureValidFromDirective, hc, hscan, hm, collectUserLines_eq]

/-- Counterexample for C5 as stated: on a document with two FROM-led lines
(none of them a valid base directive) the repair drops both, so the rebuilt
document is not all original lines minus the one original base-directive
line, which would keep `FROM c/d`. -/
theorem claim_C5_cex :
    ensureValidFromDirective "PARAMETER temperature 0.7\nFROM a/b\nFROM c/d"
        ["llama2", "mistral"] (some "mistral")
      = some "FROM mistral\nPARAMETER temperature 0.7" ∧
    sJoinNl ("FROM mistral" ::
        claimRemoveBaseLine (sLines "PARAMETER temperature 0.7\nFROM a/b\nFROM c/d"))
      = "FROM mistral\nPARAMETER temperature 0.7\nFROM c/d" ∧
    ("FROM mistral\nPARAMETER temperature 0.7" : String)
      ≠ "FROM mistral\nPARAMETER temperature 0.7\nFROM c/d" := by
  exact ⟨by decide, by decide, by decide⟩

/-- Witness for C5, Scenario A of the spec: a parameter-only document with
`mistral` chosen is rebuilt as the base directive followed by the original
parameter line. -/
theorem claim_C5_witness :
    ensureValidFromDirective "PARAMETER temperature 0.7" ["llama2", "mistral"]
        (some "mistral")
      = some "FROM mistral\nPARAMETER temperature 0.7" :=
  (claim_C5_repair_rebuild "PARAMETER temperature 0.7" ["llama2", "mistral"]
    "mistral" (by decide) (by decide) (by decide)).trans (by decide)

/-- C6: capturing a backup for `N` twice leaves exactly one live backup for
`N`, holding the second content; restore then yields the second content,
not the first, and returns the store unchanged (the backup is not
deleted). -/
theorem claim_C6_backup_latest_wins (st : BackupState) (N D1 D2 : String) :
    ((captureBackup (captureBackup st N D1) N D2).index.filter fun e => e.1 == N)
      = [(N, D2)] ∧
    restoreFromBackup (captureBackup (captureBackup st N D1) N D2) N
      = (some D2, captureBackup (captureBackup st N D1) N D2) := by
  constructor
  · simp [captureBackup, List.filter_cons, filter_eq_of_filter_ne]
  · simp [restoreFromBackup, captureBackup, readBackupFile, writeBackupFile,
      List.find?]

/-- C7 (amended): with the worker idle, the gate rejects a request with the
name-format validation error exactly when the operation tag is not `"save"`
and the name is empty or fails `^[a-zA-Z0-9._-]+$`.  The exemption is the
save-intent replace of an existing catalog model, not the restore path: a
restore-driven rebuild is name-checked like a create whenever the operation
tag is not `"save"`. -/
theorem claim_C7_name_check_scope (op : Option String) (name content : String)
    (models : List String) (choice : Option String) :
    createGate false op name content models choice = GateResult.invalidName ↔
      (op ≠ some "save" ∧ (name == "" || !(reNameFull name)) = true) := by
  cases hop : (op == some "save") with
  | true =>
    have he : op = some "save" := by simpa using hop
    subst he
    simp [createGate]
  | false =>
    have hne : op ≠ some "save" := by simpa using hop
    cases hn : (name == "" || !(reNameFull name)) with
    | true => simp [createGate, hop, hn, hne]
    | false =>
      cases he : ensureValidFromDirective content models choice <;>
        simp [createGate, hop, hn, he]

/-- Counterexample for C7 as stated: under the save intent — which is not
the restore-driven internal replace — the invalid name `bad name!` is not
rejected; the gate starts the creation thread, so daemon calls follow. -/
theorem claim_C7_cex :
    reNameFull "bad name!" = false ∧
    createGate false (some "save") "bad name!" "FROM llama2" [] none
      = GateResult.started "FROM llama2" := by
  exact ⟨by decide, by decide⟩

/-- Witness for C7: a create-intent request with the same invalid name is
rejected with the validation error before anything is started. -/
theorem claim_C7_witness :
    createGate false none "bad name!" "FROM llama2" [] none
      = GateResult.invalidName :=
  (claim_C7_name_check_scope none "bad name!" "FROM llama2" [] none).mpr
    (by decide)

/-- C8 (amended): the security-mode report is on exactly when both firewall
rules exist; a state with exactly one rule present is reported as off —
never as on, but also with no distinct inconsistent report; after the
success path of enable both rules exist, so the state reads on, and after
disable neither does, so it reads off. -/
theorem claim_C8_isolation_states (s : FwState) :
    (checkFirewallRules s = true ↔ (s.outRule = true ∧ s.inRule = true)) ∧
    checkFirewallRules ⟨true, false⟩ = false ∧
    checkFirewallRules ⟨false, true⟩ = false ∧
    checkFirewallRules (enableSecurityMode s) = true ∧
    checkFirewallRules (disableSecurityMode s) = false := by
  obtain ⟨o, i⟩ := s
  cases o <;> cases i <;> decide

/-- Counterexample for C8 as stated: the state with only the outbound rule
is reported identically to the state with no rule at all, so it is not
reported as inconsistent, a value the claim distinguishes from off. -/
theorem claim_C8_cex :
    checkFirewallRules ⟨true, false⟩ = checkFirewallRules ⟨false, false⟩ ∧
    claimCurrentState ⟨true, false⟩ = IsoState.isoInconsistent ∧
    claimCurrentState ⟨false, false⟩ = IsoState.isoOff ∧
    IsoState.isoInconsistent ≠ IsoState.isoOff := by
  decide

/-- Witness for C8: enable then check reads on; disable then check reads
off. -/
theorem claim_C8_witness :
    checkFirewallRules (enableSecurityMode ⟨false, false⟩) = true ∧
    checkFirewallRules (disableSecurityMode ⟨true, true⟩) = false :=
  ⟨(claim_C8_isolation_states ⟨false, false⟩).2.2.2.1,
   (claim_C8_isolation_states ⟨true, true⟩).2.2.2.2⟩

end OllamaSpec
